import Mathlib

/-!
Verification of the Claude OAuth token broker (litellm proxy auth modules).

The definitions below are shallow embeddings of the Python source:
  - `claude_oauth_flow.py`   (PKCE generation, flow-state store, code exchange)
  - `claude_token_manager.py` (token lifecycle manager: get/store/refresh/revoke)
  - `claude_oauth_handler.py` (state verification, refresh endpoint client)
  - `bearer_auth.py`          (upstream request header preparation)
  - `claude_auth_service.py`  (facade `get_headers`)
  - `claude_oauth_endpoints.py` (revoke endpoint response)

Time is modelled as unix seconds (natural numbers; integers where the source
subtracts timestamps).  Network calls, CSPRNG output and decryption results
enter as explicit oracle parameters.  Python dictionaries become association
maps `String → Option _`.
-/

/-! ## Base64 (URL-safe) encoding, as used by `base64.urlsafe_b64encode` -/

/-- The URL-safe base64 alphabet, `A-Z a-z 0-9 - _`. -/
def b64urlAlphabet : List Char :=
  "ABCDEFGHIJKLMNOPQRSTUVWXYZabcdefghijklmnopqrstuvwxyz0123456789-_".data

/-- Character for a 6-bit group. -/
def b64Char (n : Nat) : Char := b64urlAlphabet.getD n 'A'

/-- URL-safe base64 encoding of a byte list, with `=` padding,
    mirroring `base64.urlsafe_b64encode`. -/
def b64EncodeGroups : List Nat → List Char
  | [] => []
  | [b1] =>
    [b64Char (b1 / 4), b64Char (b1 % 4 * 16), '=', '=']
  | [b1, b2] =>
    [b64Char (b1 / 4), b64Char (b1 % 4 * 16 + b2 / 16), b64Char (b2 % 16 * 4), '=']
  | b1 :: b2 :: b3 :: rest =>
    b64Char (b1 / 4) :: b64Char (b1 % 4 * 16 + b2 / 16) ::
    b64Char (b2 % 16 * 4 + b3 / 64) :: b64Char (b3 % 64) :: b64EncodeGroups rest

/-- `base64.urlsafe_b64encode(bs).decode('utf-8')`. -/
def urlsafe_b64encode (bs : List Nat) : String := ⟨b64EncodeGroups bs⟩

/-- Python `str.rstrip('=')`. -/
def rstripEq (s : String) : String := ⟨(s.data.reverse.dropWhile (· = '=')).reverse⟩

/-- UTF-8 bytes of a string; the strings fed to it here are ASCII (base64
    output), for which UTF-8 is the identity on code points. -/
def strBytes (s : String) : List Nat := s.data.map Char.toNat

/-! ## PKCE pair generation

Embeds `ClaudeOAuthFlow.generate_pkce_pair` (claude_oauth_flow.py, identical
code in `ClaudeOAuthHandler.generate_pkce_pair`).  The 32 random bytes drawn
by `secrets.token_bytes(32)` and the SHA-256 compression function enter as
parameters; the byte plumbing and encodings are concrete. -/

/-- `generate_pkce_pair`: verifier is the padding-stripped URL-safe base64 of
    the random bytes; the challenge is the padding-stripped URL-safe base64 of
    SHA-256 over the verifier's UTF-8 bytes. -/
def generate_pkce_pair (sha256 : List Nat → List Nat) (randomBytes : List Nat) :
    String × String :=
  let code_verifier := rstripEq (urlsafe_b64encode randomBytes)
  let challenge_bytes := sha256 (strBytes code_verifier)
  let code_challenge := rstripEq (urlsafe_b64encode challenge_bytes)
  (code_verifier, code_challenge)

/-! ## Authorization-code sanitization (`exchange_code` in claude_oauth_flow.py) -/

/-- Python `s.split(sep)[0]`: the longest leading run free of `sep`. -/
def pySplitHead (sep : Char) (l : List Char) : List Char := l.takeWhile (· != sep)

/-- `clean_code = authorization_code.split('#')[0].split('&')[0]`. -/
def clean_code (authorization_code : String) : String :=
  ⟨pySplitHead '&' (pySplitHead '#' authorization_code.data)⟩

theorem pySplitHead_takeWhile (sep : Char) (l : List Char) :
    pySplitHead sep l = l.takeWhile (· != sep) := rfl

/-- Composing the two Python splits takes the leading run free of both
    characters. -/
theorem clean_code_eq_takeWhile (c : String) :
    clean_code c = ⟨c.data.takeWhile (fun ch => ch != '#' && ch != '&')⟩ := by
  unfold clean_code pySplitHead
  congr 1
  rw [List.takeWhile_takeWhile]
  have hpred : (fun a => decide ((a != '&') = true ∧ (a != '#') = true))
      = (fun ch => ch != '#' && ch != '&') := by
    funext x
    cases h1 : x == '#' <;> cases h2 : x == '&' <;> simp_all
  rw [hpred]

/-! ## PKCE flow-state store (`claude_oauth_flow.py`)

The store of `claude_oauth_state_<STATE>.json` files is modelled as a map
from the state string to the parsed `OAuthState` record. -/

/-- `OAuthState` dataclass from claude_oauth_flow.py. -/
structure OAuthState where
  state : String
  code_verifier : String
  timestamp : Nat
  expires_at : Nat
deriving DecidableEq

/-- The flow-state file store: state string to stored record. -/
def StateStore : Type := String → Option OAuthState

/-- Store with no state files. -/
def emptyStore : StateStore := fun _ => none

/-- `state_file.unlink(missing_ok=True)`. -/
def removeState (store : StateStore) (state : String) : StateStore :=
  fun s => if s = state then none else store s

/-- `ClaudeOAuthFlow.STATE_EXPIRY_SECONDS`. -/
def STATE_EXPIRY_SECONDS : Nat := 600

/-- `ClaudeOAuthFlow.save_state`: writes the record with
    `expires_at = now + STATE_EXPIRY_SECONDS`. -/
def save_state (store : StateStore) (state code_verifier : String) (now : Nat) :
    StateStore :=
  fun s => if s = state
    then some { state := state, code_verifier := code_verifier,
                timestamp := now, expires_at := now + STATE_EXPIRY_SECONDS }
    else store s

/-- `ClaudeOAuthFlow.load_state`: returns the record when present and not
    expired; deletes the file only on the expired path. A successful read
    leaves the store unchanged. -/
def load_state (store : StateStore) (state : String) (now : Nat) :
    Option OAuthState × StateStore :=
  match store state with
  | none => (none, store)
  | some sd =>
    if sd.expires_at < now then (none, removeState store state)
    else (some sd, store)

/-! ## Code exchange (`ClaudeOAuthFlow.exchange_code`) -/

/-- OAuth configuration constants from `ClaudeOAuthFlow`. -/
def CLIENT_ID : String := "9d1c250a-e61b-44d9-88ed-5944d1962f5e"

def REDIRECT_URI : String := "https://console.anthropic.com/oauth/code/callback"

def SCOPES : List String := ["org:create_api_key", "user:profile", "user:inference"]

/-- Split a character list at every occurrence of `sep`. -/
def splitChar (sep : Char) : List Char → List (List Char)
  | [] => [[]]
  | c :: rest =>
    match splitChar sep rest with
    | [] => if c = sep then [[], [c]] else [[c]]
    | g :: gs => if c = sep then [] :: g :: gs else (c :: g) :: gs

/-- Python `str.split()` (no argument): whitespace split with empties dropped;
    the strings involved here only use spaces. -/
def pySplitWS (s : String) : List String :=
  ((splitChar ' ' s.data).map (fun l => (⟨l⟩ : String))).filter (· ≠ "")

/-- JSON body POSTed to the token endpoint. -/
structure TokenRequest where
  grant_type : String
  client_id : String
  code : String
  redirect_uri : String
  code_verifier : String
  state : String
deriving DecidableEq

/-- Provider token-endpoint response JSON (`access_token`, `refresh_token`
    mandatory keys; `expires_in` and `scope` optional). -/
structure ProviderTokenData where
  access_token : String
  refresh_token : String
  expires_in : Option Nat
  scope : Option String
deriving DecidableEq

/-- The normalized result dict built by `exchange_code`. -/
structure ExchangeResult where
  accessToken : String
  refreshToken : String
  expiresAt : Nat
  scopes : List String
  isMax : Bool
deriving DecidableEq

/-- Outcome of one `exchange_code` call: the raised-or-returned result, the
    flow-state store afterwards, and the request transmitted to the token
    endpoint (none when no HTTP call was made). -/
structure ExchangeOutcome where
  result : Except String ExchangeResult
  store : StateStore
  request : Option TokenRequest

/-- `ClaudeOAuthFlow.exchange_code`.  The HTTP response enters as an oracle:
    `some td` for a 2xx response with body `td`, `none` for a non-2xx response
    (`response.raise_for_status()`).  The state file is unlinked only after a
    successful exchange. -/
def exchange_code (httpResp : Option ProviderTokenData) (store : StateStore)
    (authorization_code state : String) (now : Nat) : ExchangeOutcome :=
  let cc := clean_code authorization_code
  match load_state store state now with
  | (none, store1) =>
    { result := .error "Invalid or expired OAuth state", store := store1,
      request := none }
  | (some sd, store1) =>
    let req : TokenRequest :=
      { grant_type := "authorization_code", client_id := CLIENT_ID, code := cc,
        redirect_uri := REDIRECT_URI, code_verifier := sd.code_verifier,
        state := state }
    match httpResp with
    | none =>
      { result := .error "HTTPStatusError", store := store1, request := some req }
    | some td =>
      let res : ExchangeResult :=
        { accessToken := td.access_token, refreshToken := td.refresh_token,
          expiresAt := now + td.expires_in.getD 3600,
          scopes := pySplitWS (td.scope.getD (String.intercalate " " SCOPES)),
          isMax := true }
      { result := .ok res, store := removeState store1 state, request := some req }

/-! ## Token lifecycle manager (`claude_token_manager.py`) -/

/-- `ClaudeTokenInfo` dataclass. -/
structure ClaudeTokenInfo where
  user_id : String
  access_token : String
  refresh_token : Option String
  expires_at : Nat
  scopes : List String
  is_max : Bool
  refresh_count : Nat
  last_used : Option Nat
deriving DecidableEq

/-- The dict stored under `claude_token:<user_id>` by `store_token`. -/
structure CacheData where
  accessToken : String
  refreshToken : Option String
  expiresAt : Nat
  scopes : Option (List String)
  isMax : Option Bool
  refresh_count : Option Nat
  last_used : Option Nat
deriving DecidableEq

/-- Manager state: the in-memory `active_tokens` dict, the
    `refreshing_tokens` set, and the optional `DualCache` keyed by cache key
    (`self.cache` may be `None`). The Prisma branch of the source is a logging
    placeholder and stores nothing. -/
@[ext]
structure MgrState where
  active_tokens : String → Option ClaudeTokenInfo
  refreshing : String → Bool
  cache : Option (String → Option CacheData)

/-- `f"claude_token:{user_id}"`. -/
def cacheKey (user_id : String) : String := "claude_token:" ++ user_id

/-- Cache lookup as seen through the optional cache tier. -/
def cacheGet (st : MgrState) (user_id : String) : Option CacheData :=
  match st.cache with
  | none => none
  | some m => m (cacheKey user_id)

/-- `ClaudeTokenInfo` built from a cache hit in `get_token`, with the
    source's `.get` defaults. -/
def infoFromCache (user_id : String) (cd : CacheData) : ClaudeTokenInfo :=
  { user_id := user_id
    access_token := cd.accessToken
    refresh_token := cd.refreshToken
    expires_at := cd.expiresAt
    scopes := cd.scopes.getD ["org:create_api_key", "user:profile", "user:inference"]
    is_max := cd.isMax.getD true
    refresh_count := cd.refresh_count.getD 0
    last_used := cd.last_used }

/-- Cache dict written by `store_token`. -/
def toCacheData (info : ClaudeTokenInfo) : CacheData :=
  { accessToken := info.access_token
    refreshToken := info.refresh_token
    expiresAt := info.expires_at
    scopes := some info.scopes
    isMax := some info.is_max
    refresh_count := some info.refresh_count
    last_used := info.last_used }

/-- `ClaudeTokenManager.store_token`: write-through to memory and, when
    present, the cache tier. -/
def store_token (st : MgrState) (user_id : String) (info : ClaudeTokenInfo) :
    MgrState :=
  { active_tokens := fun u => if u = user_id then some info else st.active_tokens u
    refreshing := st.refreshing
    cache := st.cache.map (fun m k =>
      if k = cacheKey user_id then some (toCacheData info) else m k) }

/-- `ClaudeTokenManager.revoke_token`: removes the user from memory, from the
    refreshing set and from the cache, and always returns `True`. -/
def revoke_token (st : MgrState) (user_id : String) : Bool × MgrState :=
  (true,
   { active_tokens := fun u => if u = user_id then none else st.active_tokens u
     refreshing := fun u => if u = user_id then false else st.refreshing u
     cache := st.cache.map (fun m k =>
       if k = cacheKey user_id then none else m k) })

/-- Result of one `get_token` call: the returned token, the manager state at
    return, and whether a background refresh task was spawned. -/
structure GetTokenResult where
  token : Option String
  state : MgrState
  spawnedRefresh : Bool

/-- The lookup at the head of `get_token`: the in-memory `active_tokens`
    dict first, then the cache tier. -/
def get_token_lookup (st : MgrState) (user_id : String) : Option ClaudeTokenInfo :=
  match st.active_tokens user_id with
  | some info => some info
  | none => (cacheGet st user_id).map (infoFromCache user_id)

/-- `ClaudeTokenManager.get_token`: memory lookup, read-through from the
    cache tier, `last_used` bump, optional background-refresh spawn, and the
    final strict-expiry check before returning the access token. -/
def get_token (st : MgrState) (auto_refresh selfAutoRefresh : Bool)
    (refresh_threshold : Nat) (user_id : String) (now : Nat) : GetTokenResult :=
  match get_token_lookup st user_id with
  | none => { token := none, state := st, spawnedRefresh := false }
  | some info =>
    let info1 := { info with last_used := some now }
    let st1 : MgrState :=
      { active_tokens := fun u => if u = user_id then some info1 else st.active_tokens u
        refreshing := st.refreshing
        cache := st.cache }
    let spawned := auto_refresh && selfAutoRefresh
      && decide (info1.expires_at ≤ now + refresh_threshold)
      && !(st.refreshing user_id) && info1.refresh_token.isSome
    { token := if now < info1.expires_at then some info1.access_token else none
      state := st1
      spawnedRefresh := spawned }

/-! ## Refresh with retry (`ClaudeTokenManager._refresh_token_with_retry`) -/

/-- Normalized refresh response consumed by the manager (`accessToken` and
    `expiresAt` are mandatory keys; `refreshToken`, `scopes`, `isMax` are read
    with `.get`). -/
structure RefreshResponse where
  accessToken : String
  refreshToken : Option String
  expiresAt : Nat
  scopes : Option (List String)
  isMax : Option Bool
deriving DecidableEq

/-- Outcome of one `await self.oauth_handler.refresh_access_token()` attempt.
    `exn` is any raised exception; the flag records whether it was the
    HTTP 401 `HTTPException` raised by `refresh_access_token` on
    `httpx.HTTPStatusError` (the source's `except Exception` clause never
    inspects it). -/
inductive AttemptOutcome where
  | ok (resp : RefreshResponse)
  | exn (isHttp401 : Bool)
deriving DecidableEq

/-- Whether an attempt raised. -/
def AttemptOutcome.isExn : AttemptOutcome → Bool
  | .ok _ => false
  | .exn _ => true

/-- The new `ClaudeTokenInfo` the success branch builds from the old record
    and the refresh response: rotated refresh token when the response carries
    one, old one retained otherwise, and `refresh_count` bumped by one. -/
def applyRefreshResponse (user_id : String) (old : ClaudeTokenInfo)
    (resp : RefreshResponse) : ClaudeTokenInfo :=
  { user_id := user_id
    access_token := resp.accessToken
    refresh_token := match resp.refreshToken with
      | some t => some t
      | none => old.refresh_token
    expires_at := resp.expiresAt
    scopes := resp.scopes.getD old.scopes
    is_max := resp.isMax.getD true
    refresh_count := old.refresh_count + 1
    last_used := old.last_used }

/-- Trace of one `_refresh_token_with_retry` call: return value, manager
    state afterwards, number of refresh attempts issued to the provider, and
    the `asyncio.sleep` backoff durations in order. -/
structure RetryTrace where
  result : Bool
  state : MgrState
  attempts : Nat
  sleeps : List Nat

/-- The `for attempt in range(max_retries)` loop body. `attempt` is the
    current index, the second argument the remaining iterations; on the last
    attempt's failure the token is revoked, otherwise the loop sleeps
    `2 ** attempt` seconds and retries. -/
def retryGo (user_id : String) (tok : ClaudeTokenInfo)
    (oracle : Nat → AttemptOutcome) :
    Nat → Nat → MgrState → List Nat → Nat → RetryTrace
  | _attempt, 0, st, sleeps, att =>
    { result := false, state := st, attempts := att, sleeps := sleeps }
  | attempt, rem + 1, st, sleeps, att =>
    match oracle attempt with
    | .ok resp =>
      { result := true
        state := store_token st user_id (applyRefreshResponse user_id tok resp)
        attempts := att + 1
        sleeps := sleeps }
    | .exn _ =>
      if rem = 0 then
        { result := false, state := (revoke_token st user_id).2,
          attempts := att + 1, sleeps := sleeps }
      else
        retryGo user_id tok oracle (attempt + 1) rem st (sleeps ++ [2 ^ attempt])
          (att + 1)

/-- `ClaudeTokenManager._refresh_token_with_retry`: bail out returning
    `False` when the user is already in `refreshing_tokens`; otherwise add
    the user to the set, run the retry loop, and discard the user from the
    set in the `finally` block. -/
def refresh_token_with_retry (st : MgrState) (user_id : String)
    (tok : ClaudeTokenInfo) (oracle : Nat → AttemptOutcome)
    (max_retries : Nat) : RetryTrace :=
  if st.refreshing user_id then
    { result := false, state := st, attempts := 0, sleeps := [] }
  else
    let st1 : MgrState :=
      { st with refreshing := fun u => if u = user_id then true else st.refreshing u }
    let t := retryGo user_id tok oracle 0 max_retries st1 [] 0
    { t with state :=
        { t.state with refreshing := fun u =>
            if u = user_id then false else t.state.refreshing u } }

/-! ## State verification (`ClaudeOAuthHandler.verify_state`) -/

/-- The JSON payload encrypted into the state parameter by
    `ClaudeOAuthHandler.generate_state`. -/
structure PyStateData where
  nonce : String
  timestamp : Int
  user_id : Option String
deriving DecidableEq

/-- An HTTP error as raised via `HTTPException(status_code, detail)`. -/
structure HttpError where
  status : Nat
  detail : String
deriving DecidableEq

/-- What can be raised inside the `try` block of `verify_state`: any
    exception from the decode/decrypt/parse steps, or the `HTTPException`
    raised on an expired timestamp. -/
inductive VerifyInnerErr where
  | decodeFailure
  | httpExc (e : HttpError)
deriving DecidableEq

/-- The body of the `try` block of `verify_state`.  The
    base64-decode/decrypt/JSON-parse pipeline enters as an oracle: `some sd`
    when it yields `sd`, `none` when any of those steps raises. -/
def verify_state_inner (decoded : Option PyStateData) (now : Int) :
    Except VerifyInnerErr PyStateData :=
  match decoded with
  | none => .error .decodeFailure
  | some sd =>
    if now - sd.timestamp > 600 then
      .error (.httpExc { status := 400, detail := "OAuth state expired" })
    else .ok sd

/-- `ClaudeOAuthHandler.verify_state`: the `except Exception` clause catches
    everything raised in the `try` block, including the handler's own expired
    `HTTPException`, and replaces it with the generic 400. -/
def verify_state (decoded : Option PyStateData) (now : Int) :
    Except HttpError PyStateData :=
  match verify_state_inner decoded now with
  | .ok sd => .ok sd
  | .error _ => .error { status := 400, detail := "Invalid OAuth state" }

/-! ## Upstream bearer headers (`bearer_auth.py`, `claude_auth_service.py`) -/

/-- A header dict. -/
def Headers : Type := String → Option String

/-- Python `headers[k] = v`. -/
def hset (h : Headers) (k v : String) : Headers :=
  fun k' => if k' = k then some v else h k'

/-- Python `headers.pop(k, None)`. -/
def hpop (h : Headers) (k : String) : Headers :=
  fun k' => if k' = k then none else h k'

/-- The metadata keys `prepare_oauth_headers` reads. -/
structure OAuthMetadata where
  using_claude_oauth : Bool
  claude_oauth_token : Option String
deriving DecidableEq

/-- Python truthiness of an optional string: present and non-empty. -/
def truthyOptStr : Option String → Bool
  | none => false
  | some s => !(s = "")

/-- The token-resolution chain of `ClaudeOAuthBearer.prepare_oauth_headers`:
    metadata token, then a `Bearer `-carrying api key, then the
    `CLAUDE_ACCESS_TOKEN` environment variable unless the api key is a real
    `sk-ant-` key. -/
def resolve_oauth_token (metadata : Option OAuthMetadata)
    (api_key : Option String) (envToken : Option String) : Option String :=
  if truthyOptStr (metadata.bind (·.claude_oauth_token)) then
    metadata.bind (·.claude_oauth_token)
  else if truthyOptStr api_key && (api_key.getD "").startsWith "Bearer " then
    some ((api_key.getD "").replace "Bearer " "")
  else if !(truthyOptStr api_key && (api_key.getD "").startsWith "sk-ant-") then
    envToken
  else
    none

/-- `ClaudeOAuthBearer.prepare_oauth_headers`: when a truthy OAuth token is
    resolved, set the bearer `Authorization` header, pop `x-api-key`, and set
    the `anthropic-beta` header; otherwise return the headers untouched. -/
def prepare_oauth_headers (headers : Headers) (api_key : Option String)
    (metadata : Option OAuthMetadata) (envToken : Option String) : Headers :=
  match resolve_oauth_token metadata api_key envToken with
  | none => headers
  | some tok =>
    if tok = "" then headers
    else
      hset (hpop (hset headers "Authorization" ("Bearer " ++ tok)) "x-api-key")
        "anthropic-beta" "oauth-2025-04-20"

/-- Modelled from the spec: `ClaudeOAuthHandler.get_auth_headers`, which
    `ClaudeAuthService.get_headers` delegates to, is absent from the source
    tree (only tests reference it); the spec's `headers` operation returns the
    bearer `Authorization` header together with the OAuth beta header. -/
def get_auth_headers (access_token : String) : Headers :=
  hset (hset (fun _ => none) "Authorization" ("Bearer " ++ access_token))
    "anthropic-beta" "oauth-2025-04-20"

/-- `ClaudeAuthService.get_headers`: raises `ValueError` when the handler
    holds no (truthy) access token, otherwise delegates. -/
def get_headers (access_token : Option String) : Except String Headers :=
  match access_token with
  | none => .error "No access token available. Please authenticate first: litellm claude login"
  | some t =>
    if t = "" then
      .error "No access token available. Please authenticate first: litellm claude login"
    else .ok (get_auth_headers t)

/-! ## Revoke endpoint response (`claude_oauth_endpoints.py`) -/

/-- The message the `/auth/claude/revoke` endpoint returns for a given
    `manager.revoke_token` result. -/
def revoke_endpoint_message (success : Bool) : String :=
  if success then "OAuth token revoked successfully" else "No token found to revoke"

/-! ## Single-flight discipline (`_refresh_token_with_retry` under asyncio)

Concurrent `_refresh_token_with_retry` coroutines for the same user are
modelled as an interleaving of atomic blocks.  Under cooperative asyncio
scheduling a coroutine can only be preempted at an `await`, so the
membership check on `refreshing_tokens` together with the `add` is one
atomic block and every outbound refresh request happens while the coroutine
is in flight.  The membership has two release points in the source: the
`finally: discard`, and — on the final-failure path — the `discard` inside
`revoke_token` (claude_token_manager.py:340), which in a cache-configured
deployment is followed by a suspension at `await
self.cache.async_delete_cache(...)` (line 345) before the `finally` block
runs.  Three coroutines are modelled, enough to exhibit the interleavings
this early release admits. -/

/-- Program counter of one `_refresh_token_with_retry` coroutine.
    `doneBusy` is the early `return False` taken when the user was already in
    the refreshing set; `postRevoke` is the final-failure path after
    `revoke_token` has already discarded the membership, suspended at the
    cache delete with the `finally` discard still pending; `doneRun r` is any
    completion of the full body. -/
inductive TaskPc where
  | start
  | inFlight
  | postRevoke
  | doneBusy
  | doneRun (r : Bool)
deriving DecidableEq

/-- Joint state of the `refreshing_tokens` membership for one user and three
    competing coroutines, with the number of outbound refresh requests each
    has issued.  `early` is a history flag recording that some coroutine has
    taken the early release inside `revoke_token`. -/
structure SFState where
  inSet : Bool
  early : Bool
  pcA : TaskPc
  pcB : TaskPc
  pcC : TaskPc
  reqA : Nat
  reqB : Nat
  reqC : Nat
deriving DecidableEq

/-- Interleaved atomic steps of the three coroutines.  `enter` is the
    check-and-add block, `busy` the early `return False`, `req` one outbound
    refresh request (one loop attempt), `finish` a completion of the body
    whose `finally` discards the membership, `revokeRelease` the sync part of
    `revoke_token` on the final failed attempt (discards the membership, then
    suspends at the cache delete), and `finishPost` the resumption after that
    suspension: `return False` plus the `finally` discard — which strips
    whatever membership currently exists, another coroutine's included. -/
inductive SFStep : SFState → SFState → Prop where
  | enterA (s : SFState) (h1 : s.pcA = .start) (h2 : s.inSet = false) :
      SFStep s { s with inSet := true, pcA := .inFlight }
  | busyA (s : SFState) (h1 : s.pcA = .start) (h2 : s.inSet = true) :
      SFStep s { s with pcA := .doneBusy }
  | reqA (s : SFState) (h1 : s.pcA = .inFlight) :
      SFStep s { s with reqA := s.reqA + 1 }
  | finishA (s : SFState) (r : Bool) (h1 : s.pcA = .inFlight) :
      SFStep s { s with inSet := false, pcA := .doneRun r }
  | revokeReleaseA (s : SFState) (h1 : s.pcA = .inFlight) :
      SFStep s { s with inSet := false, early := true, pcA := .postRevoke }
  | finishPostA (s : SFState) (h1 : s.pcA = .postRevoke) :
      SFStep s { s with inSet := false, pcA := .doneRun false }
  | enterB (s : SFState) (h1 : s.pcB = .start) (h2 : s.inSet = false) :
      SFStep s { s with inSet := true, pcB := .inFlight }
  | busyB (s : SFState) (h1 : s.pcB = .start) (h2 : s.inSet = true) :
      SFStep s { s with pcB := .doneBusy }
  | reqB (s : SFState) (h1 : s.pcB = .inFlight) :
      SFStep s { s with reqB := s.reqB + 1 }
  | finishB (s : SFState) (r : Bool) (h1 : s.pcB = .inFlight) :
      SFStep s { s with inSet := false, pcB := .doneRun r }
  | revokeReleaseB (s : SFState) (h1 : s.pcB = .inFlight) :
      SFStep s { s with inSet := false, early := true, pcB := .postRevoke }
  | finishPostB (s : SFState) (h1 : s.pcB = .postRevoke) :
      SFStep s { s with inSet := false, pcB := .doneRun false }
  | enterC (s : SFState) (h1 : s.pcC = .start) (h2 : s.inSet = false) :
      SFStep s { s with inSet := true, pcC := .inFlight }
  | busyC (s : SFState) (h1 : s.pcC = .start) (h2 : s.inSet = true) :
      SFStep s { s with pcC := .doneBusy }
  | reqC (s : SFState) (h1 : s.pcC = .inFlight) :
      SFStep s { s with reqC := s.reqC + 1 }
  | finishC (s : SFState) (r : Bool) (h1 : s.pcC = .inFlight) :
      SFStep s { s with inSet := false, pcC := .doneRun r }
  | revokeReleaseC (s : SFState) (h1 : s.pcC = .inFlight) :
      SFStep s { s with inSet := false, early := true, pcC := .postRevoke }
  | finishPostC (s : SFState) (h1 : s.pcC = .postRevoke) :
      SFStep s { s with inSet := false, pcC := .doneRun false }

/-- Initial state: user not refreshing, all three coroutines about to run. -/
def sfInit : SFState :=
  { inSet := false, early := false, pcA := .start, pcB := .start,
    pcC := .start, reqA := 0, reqB := 0, reqC := 0 }

/-- States reachable by interleaving the three coroutines. -/
def SFReach (s : SFState) : Prop := Relation.ReflTransGen SFStep sfInit s

/-- Conditional single-flight invariant: as long as no coroutine has taken
    the early release inside `revoke_token`, the in-flight sections are
    mutually exclusive and any in-flight coroutine holds the set membership;
    a coroutine suspended after the early release has set the history flag;
    and a coroutine that has not entered, or that bailed out busy, has issued
    no request. -/
def SFInv (s : SFState) : Prop :=
  (s.early = false →
    ¬(s.pcA = .inFlight ∧ s.pcB = .inFlight) ∧
    ¬(s.pcA = .inFlight ∧ s.pcC = .inFlight) ∧
    ¬(s.pcB = .inFlight ∧ s.pcC = .inFlight) ∧
    ((s.pcA = .inFlight ∨ s.pcB = .inFlight ∨ s.pcC = .inFlight) →
      s.inSet = true)) ∧
  (s.pcA = .postRevoke → s.early = true) ∧
  (s.pcB = .postRevoke → s.early = true) ∧
  (s.pcC = .postRevoke → s.early = true) ∧
  (s.pcA = .start → s.reqA = 0) ∧
  (s.pcB = .start → s.reqB = 0) ∧
  (s.pcC = .start → s.reqC = 0) ∧
  (s.pcA = .doneBusy → s.reqA = 0) ∧
  (s.pcB = .doneBusy → s.reqB = 0) ∧
  (s.pcC = .doneBusy → s.reqC = 0)

instance (s : SFState) : Decidable (SFInv s) := by
  unfold SFInv
  infer_instance

theorem sfInv_init : SFInv sfInit := by decide

theorem sfInv_step (s s' : SFState) (hs : SFStep s s') (hinv : SFInv s) :
    SFInv s' := by
  obtain ⟨i1, i2, i3, i4, i5, i6, i7, i8, i9, i10⟩ := hinv
  cases hs <;>
    (refine ⟨?_, ?_, ?_, ?_, ?_, ?_, ?_, ?_, ?_, ?_⟩ <;> simp_all [SFInv])

theorem sfInv_reach (s : SFState) (h : SFReach s) : SFInv s := by
  induction h with
  | refl => exact sfInv_init
  | tail _ hstep ih => exact sfInv_step _ _ hstep ih

/-- One coroutine's phase change across a step that releases the set
    membership: a finishing body, the early release inside `revoke_token`,
    or the pending `finally` discard of a coroutine already past the early
    release. -/
def releasedBy (p p' : TaskPc) : Prop :=
  (p = .inFlight ∧ (∃ r, p' = .doneRun r)) ∨
  (p = .inFlight ∧ p' = .postRevoke) ∨
  (p = .postRevoke ∧ p' = .doneRun false)

/-- The membership is released not only by the `finally` discard of the
    coroutine that finishes, but also by the early discard inside
    `revoke_token` and by the later `finally` discard of a coroutine already
    past it. -/
theorem sf_release_points (s s' : SFState) (hs : SFStep s s')
    (hin : s.inSet = true) (hout : s'.inSet = false) :
    releasedBy s.pcA s'.pcA ∨ releasedBy s.pcB s'.pcB ∨
    releasedBy s.pcC s'.pcC := by
  cases hs <;> simp_all [releasedBy]

/-! ## Claim theorems -/

/-- Claim C1: `get_token` returns either `none` or the access token of a
    record whose `expires_at` is strictly greater than the current time at
    the moment of return; it never returns the access token of a record with
    `expires_at ≤ now`. -/
theorem C1_get_token_unexpired (st : MgrState) (ar sar : Bool) (th : Nat)
    (u : String) (now : Nat) (tok : String)
    (h : (get_token st ar sar th u now).token = some tok) :
    ∃ info : ClaudeTokenInfo,
      (get_token st ar sar th u now).state.active_tokens u = some info ∧
      info.access_token = tok ∧ now < info.expires_at := by
  unfold get_token at h ⊢
  cases hl : get_token_lookup st u with
  | none => rw [hl] at h; simp at h
  | some info =>
    simp only [hl] at h ⊢
    split at h
    · next hexp =>
        exact ⟨{ info with last_used := some now }, by simp,
          Option.some.inj h, hexp⟩
    · next hexp => simp at h

/-- Concrete record used by the witnesses. -/
def tokA : ClaudeTokenInfo :=
  { user_id := "alice", access_token := "A1", refresh_token := some "R1",
    expires_at := 1000, scopes := ["user:inference"], is_max := true,
    refresh_count := 0, last_used := none }

/-- Manager state holding only `tokA`, nobody refreshing, empty cache tier. -/
def mgr0 : MgrState :=
  { active_tokens := fun u => if u = "alice" then some tokA else none
    refreshing := fun _ => false
    cache := some (fun _ => none) }

theorem C1_get_token_unexpired_witness :
    ∃ info : ClaudeTokenInfo,
      (get_token mgr0 true true 300 "alice" 500).state.active_tokens "alice" = some info ∧
      info.access_token = "A1" ∧ 500 < info.expires_at :=
  C1_get_token_unexpired mgr0 true true 300 "alice" 500 "A1" (by decide)

/-- Trace state for the C2 counterexample: coroutine A entered, issued its
    refresh request, failed its final attempt and took the early release
    inside `revoke_token`; it is suspended at the cache delete with the
    `finally` discard still pending. -/
def sfEarly : SFState :=
  { inSet := false, early := true, pcA := .postRevoke, pcB := .start,
    pcC := .start, reqA := 1, reqB := 0, reqC := 0 }

/-- Continuation of the trace: B entered and issued its request while A was
    suspended, A's pending `finally` discard stripped B's membership, and C
    entered and issued its request while B was still in flight. -/
def sfDouble : SFState :=
  { inSet := true, early := true, pcA := .doneRun false, pcB := .inFlight,
    pcC := .inFlight, reqA := 1, reqB := 1, reqC := 1 }

/-- Claim C2 counterexample: the `discard` inside `revoke_token` releases the
    membership before the coroutine finishes (`sfEarly` is reachable: the set
    is free while A is still running), so an overlapping second call enters
    and issues its own outbound refresh request; once A's pending `finally`
    discard strips that call's membership, a third call refreshes
    concurrently with the second (`sfDouble` is reachable: two calls in
    flight at once, both having issued outbound requests). -/
theorem C2_counterexample :
    (SFReach sfEarly ∧ sfEarly.inSet = false ∧ sfEarly.pcA = .postRevoke) ∧
    (SFReach sfDouble ∧ sfDouble.pcB = .inFlight ∧ sfDouble.pcC = .inFlight ∧
      sfDouble.reqB = 1 ∧ sfDouble.reqC = 1) := by
  have r1 : SFReach
      { inSet := true, early := false, pcA := .inFlight, pcB := .start,
        pcC := .start, reqA := 0, reqB := 0, reqC := 0 } :=
    Relation.ReflTransGen.single (SFStep.enterA sfInit rfl rfl)
  have r2 : SFReach
      { inSet := true, early := false, pcA := .inFlight, pcB := .start,
        pcC := .start, reqA := 1, reqB := 0, reqC := 0 } :=
    Relation.ReflTransGen.tail r1 (SFStep.reqA _ rfl)
  have r3 : SFReach sfEarly :=
    Relation.ReflTransGen.tail r2 (SFStep.revokeReleaseA _ rfl)
  have r4 : SFReach
      { inSet := true, early := true, pcA := .postRevoke, pcB := .inFlight,
        pcC := .start, reqA := 1, reqB := 0, reqC := 0 } :=
    Relation.ReflTransGen.tail r3 (SFStep.enterB _ rfl rfl)
  have r5 : SFReach
      { inSet := true, early := true, pcA := .postRevoke, pcB := .inFlight,
        pcC := .start, reqA := 1, reqB := 1, reqC := 0 } :=
    Relation.ReflTransGen.tail r4 (SFStep.reqB _ rfl)
  have r6 : SFReach
      { inSet := false, early := true, pcA := .doneRun false,
        pcB := .inFlight, pcC := .start, reqA := 1, reqB := 1, reqC := 0 } :=
    Relation.ReflTransGen.tail r5 (SFStep.finishPostA _ rfl)
  have r7 : SFReach
      { inSet := true, early := true, pcA := .doneRun false,
        pcB := .inFlight, pcC := .inFlight, reqA := 1, reqB := 1, reqC := 0 } :=
    Relation.ReflTransGen.tail r6 (SFStep.enterC _ rfl rfl)
  have r8 : SFReach sfDouble :=
    Relation.ReflTransGen.tail r7 (SFStep.reqC _ rfl)
  exact ⟨⟨r3, rfl, rfl⟩, ⟨r8, rfl, rfl, rfl, rfl⟩⟩

/-- Claim C2 (amended): `_refresh_token_with_retry` adds the userId to
    `refreshing_tokens` before contacting the provider, and a call that finds
    the userId already present returns `False` without refreshing; but the
    membership is released not only when a coroutine finishes: `revoke_token`
    on the final-failure path discards it before a cache-await suspension,
    and the pending `finally` discard can strip a later call's membership, so
    overlapping calls can both issue outbound refresh requests.  Mutual
    exclusion of in-flight refreshes holds only as long as no call has taken
    that early release. -/
theorem C2_single_flight_amended :
    (∀ s : SFState, SFReach s → SFInv s) ∧
    (∀ s s' : SFState, SFStep s s' → s.inSet = true → s'.inSet = false →
      releasedBy s.pcA s'.pcA ∨ releasedBy s.pcB s'.pcB ∨
      releasedBy s.pcC s'.pcC) :=
  ⟨sfInv_reach, sf_release_points⟩

/-- State after coroutine A's check-and-add block. -/
def sfS1 : SFState :=
  { inSet := true, early := false, pcA := .inFlight, pcB := .start,
    pcC := .start, reqA := 0, reqB := 0, reqC := 0 }

/-- State after coroutine A's early release inside `revoke_token`. -/
def sfS2 : SFState :=
  { inSet := false, early := true, pcA := .postRevoke, pcB := .start,
    pcC := .start, reqA := 0, reqB := 0, reqC := 0 }

theorem C2_single_flight_amended_witness :
    SFInv sfS1 ∧
    (releasedBy sfS1.pcA sfS2.pcA ∨ releasedBy sfS1.pcB sfS2.pcB ∨
     releasedBy sfS1.pcC sfS2.pcC) :=
  ⟨C2_single_flight_amended.1 sfS1
      (Relation.ReflTransGen.single (SFStep.enterA sfInit rfl rfl)),
   C2_single_flight_amended.2 sfS1 sfS2 (SFStep.revokeReleaseA sfS1 rfl)
     rfl rfl⟩

/-- Claim C3: for every generated PKCE pair, the verifier is the
    padding-stripped URL-safe base64 encoding of the 32 random bytes, and the
    challenge is the padding-stripped URL-safe base64 encoding of SHA-256
    over the verifier's UTF-8 bytes. -/
theorem C3_pkce_pair (sha256 : List Nat → List Nat) (randomBytes : List Nat)
    (_hlen : randomBytes.length = 32) :
    (generate_pkce_pair sha256 randomBytes).1
      = rstripEq (urlsafe_b64encode randomBytes) ∧
    (generate_pkce_pair sha256 randomBytes).2
      = rstripEq (urlsafe_b64encode
          (sha256 (strBytes (generate_pkce_pair sha256 randomBytes).1))) :=
  ⟨rfl, rfl⟩

theorem C3_pkce_pair_witness :
    (List.replicate 32 0).length = 32 ∧
    ((generate_pkce_pair id (List.replicate 32 0)).1
        = rstripEq (urlsafe_b64encode (List.replicate 32 0)) ∧
     (generate_pkce_pair id (List.replicate 32 0)).2
        = rstripEq (urlsafe_b64encode
            (id (strBytes (generate_pkce_pair id (List.replicate 32 0)).1)))) :=
  ⟨by decide, C3_pkce_pair id (List.replicate 32 0) (by decide)⟩

/-- Claim C7: the authorization code transmitted to the token endpoint is the
    input's longest leading run containing neither `#` nor `&`:
    `"CODE#garbage"` is sent as `"CODE"`, a code with neither character is
    sent unchanged, and every request `exchange_code` builds carries the
    sanitized code. -/
theorem C7_code_sanitization :
    (∀ c : String,
      clean_code c = ⟨c.data.takeWhile (fun ch => ch != '#' && ch != '&')⟩) ∧
    clean_code "CODE#garbage" = "CODE" ∧
    (∀ c : String, (∀ ch ∈ c.data, ch ≠ '#' ∧ ch ≠ '&') → clean_code c = c) ∧
    (∀ (http : Option ProviderTokenData) (store : StateStore)
       (c s : String) (now : Nat) (req : TokenRequest),
      (exchange_code http store c s now).request = some req →
      req.code = clean_code c) := by
  refine ⟨clean_code_eq_takeWhile, by decide, ?_, ?_⟩
  · intro c hall
    rw [clean_code_eq_takeWhile]
    have : c.data.takeWhile (fun ch => ch != '#' && ch != '&') = c.data := by
      apply List.takeWhile_eq_self_iff.mpr
      intro x hx
      rcases hall x hx with ⟨h1, h2⟩
      simp [h1, h2]
    rw [this]
  · intro http store c s now req h
    unfold exchange_code at h
    rcases hls : load_state store s now with ⟨sd, store1⟩
    rw [hls] at h
    cases sd with
    | none => simp at h
    | some sd0 =>
      cases http with
      | none =>
        simp only at h
        rw [← Option.some.inj h]
      | some td =>
        simp only at h
        rw [← Option.some.inj h]

/-- Request transmitted in the C7 witness scenario. -/
def req0 : TokenRequest :=
  { grant_type := "authorization_code", client_id := CLIENT_ID, code := "CODE",
    redirect_uri := REDIRECT_URI, code_verifier := "V", state := "S" }

theorem C7_code_sanitization_witness :
    (clean_code "plaincode" =
      ⟨("plaincode" : String).data.takeWhile (fun ch => ch != '#' && ch != '&')⟩) ∧
    clean_code "plaincode" = "plaincode" ∧
    req0.code = clean_code "CODE#garbage" :=
  ⟨C7_code_sanitization.1 "plaincode",
   C7_code_sanitization.2.2.1 "plaincode" (by decide),
   C7_code_sanitization.2.2.2 none (save_state emptyStore "S" "V" 0)
     "CODE#garbage" "S" 0 req0 (by decide)⟩

theorem load_state_of_missing (store : StateStore) (state : String) (now : Nat)
    (h : store state = none) : load_state store state now = (none, store) := by
  unfold load_state
  rw [h]

theorem removeState_self (store : StateStore) (state : String) :
    removeState store state state = none := by
  simp [removeState]

theorem exchange_error_of_missing (http : Option ProviderTokenData)
    (store : StateStore) (c s : String) (now : Nat) (h : store s = none) :
    (exchange_code http store c s now).result
      = .error "Invalid or expired OAuth state" := by
  unfold exchange_code
  rw [load_state_of_missing store s now h]

/-- Claim C4 counterexample: `load_state` does not delete on a successful
    read, so reading the same state twice returns the same `FlowState` both
    times instead of `NotFound` the second time. -/
theorem C4_counterexample :
    (load_state (save_state emptyStore "S" "V" 100) "S" 200).1
      = some { state := "S", code_verifier := "V", timestamp := 100,
               expires_at := 700 } ∧
    (load_state (load_state (save_state emptyStore "S" "V" 100) "S" 200).2
        "S" 200).1
      = some { state := "S", code_verifier := "V", timestamp := 100,
               expires_at := 700 } := by
  decide

/-- Claim C4 (amended): the stored flow state is consumed not by the read but
    by a successful exchange: after `exchange_code` succeeds for a state, the
    stored entry is gone and any further `exchange_code` for the same state
    fails with the invalid-state error. -/
theorem C4_exchange_one_shot (td : ProviderTokenData) (store : StateStore)
    (code state : String) (now : Nat) (r : ExchangeResult)
    (h : (exchange_code (some td) store code state now).result = .ok r) :
    (exchange_code (some td) store code state now).store state = none ∧
    ∀ (http2 : Option ProviderTokenData) (code2 : String) (now2 : Nat),
      (exchange_code http2 ((exchange_code (some td) store code state now).store)
          code2 state now2).result = .error "Invalid or expired OAuth state" := by
  have hstore : (exchange_code (some td) store code state now).store state = none := by
    unfold exchange_code at h ⊢
    rcases hls : load_state store state now with ⟨sd, store1⟩
    cases sd with
    | none => rw [hls] at h; simp at h
    | some sd0 => exact removeState_self store1 state
  exact ⟨hstore, fun http2 code2 now2 =>
    exchange_error_of_missing http2 _ code2 state now2 hstore⟩

/-- Provider response used by the C4 and C8 witnesses. -/
def tdOK : ProviderTokenData :=
  { access_token := "A2", refresh_token := "R2", expires_in := some 3600,
    scope := some "user:inference" }

theorem C4_exchange_one_shot_witness :
    (exchange_code (some tdOK) (save_state emptyStore "S" "V" 100)
        "CODE" "S" 200).store "S" = none ∧
    ∀ (http2 : Option ProviderTokenData) (code2 : String) (now2 : Nat),
      (exchange_code http2
          ((exchange_code (some tdOK) (save_state emptyStore "S" "V" 100)
              "CODE" "S" 200).store)
          code2 "S" now2).result = .error "Invalid or expired OAuth state" :=
  C4_exchange_one_shot tdOK (save_state emptyStore "S" "V" 100) "CODE" "S" 200
    { accessToken := "A2", refreshToken := "R2", expiresAt := 3800,
      scopes := ["user:inference"], isMax := true }
    (by rfl)

/-- Every attempt fails with the 401 `HTTPException` from the refresh
    endpoint. -/
def oracle401 : Nat → AttemptOutcome := fun _ => .exn true

/-- Claim C5 counterexample: an HTTP 401 from the refresh endpoint does not
    short-circuit the retries: the `except Exception` clause catches the
    `HTTPException` like any other error, so with every attempt failing 401
    the loop still makes 3 attempts and sleeps `2^0` and `2^1` seconds in
    between. -/
theorem C5_counterexample :
    (refresh_token_with_retry mgr0 "alice" tokA oracle401 3).attempts = 3 ∧
    (refresh_token_with_retry mgr0 "alice" tokA oracle401 3).sleeps = [1, 2] := by
  decide

theorem exists_exn (a : AttemptOutcome) (h : a.isExn = true) :
    ∃ b, a = .exn b := by
  cases a <;> simp_all [AttemptOutcome.isExn]

/-- Claim C5 (amended): every refresh failure — the 401 `HTTPException`
    included — is retried with exponential backoff `2^attempt` for at most 3
    total attempts; after the final failure `revoke_token` removes the record
    from memory, the refreshing set and the cache (the database branch of the
    source is a logging placeholder). No error short-circuits the retries. -/
theorem C5_retry_exhaustion (st : MgrState) (u : String)
    (tok : ClaudeTokenInfo) (oracle : Nat → AttemptOutcome)
    (hfree : st.refreshing u = false)
    (hfail : ∀ i, i < 3 → (oracle i).isExn = true) :
    (refresh_token_with_retry st u tok oracle 3).attempts = 3 ∧
    (refresh_token_with_retry st u tok oracle 3).sleeps = [2 ^ 0, 2 ^ 1] ∧
    (refresh_token_with_retry st u tok oracle 3).result = false ∧
    (refresh_token_with_retry st u tok oracle 3).state.active_tokens u = none ∧
    cacheGet (refresh_token_with_retry st u tok oracle 3).state u = none ∧
    (refresh_token_with_retry st u tok oracle 3).state.refreshing u = false := by
  obtain ⟨b0, hb0⟩ := exists_exn _ (hfail 0 (by norm_num))
  obtain ⟨b1, hb1⟩ := exists_exn _ (hfail 1 (by norm_num))
  obtain ⟨b2, hb2⟩ := exists_exn _ (hfail 2 (by norm_num))
  have hloop : ∀ (st1 : MgrState),
      retryGo u tok oracle 0 3 st1 [] 0
        = { result := false, state := (revoke_token st1 u).2, attempts := 3,
            sleeps := [2 ^ 0, 2 ^ 1] } := by
    intro st1
    show retryGo u tok oracle 0 (2 + 1) st1 [] 0 = _
    rw [retryGo, hb0]
    show retryGo u tok oracle 1 (1 + 1) st1 [2 ^ 0] 1 = _
    rw [retryGo, hb1]
    show retryGo u tok oracle 2 (0 + 1) st1 [2 ^ 0, 2 ^ 1] 2 = _
    rw [retryGo, hb2]
    rfl
  unfold refresh_token_with_retry
  simp only [hfree, Bool.false_eq_true, if_false, hloop]
  cases hc : st.cache with
  | none => simp [cacheGet, revoke_token, hc]
  | some m => simp [cacheGet, revoke_token, hc]

theorem C5_retry_exhaustion_witness :
    (refresh_token_with_retry mgr0 "alice" tokA oracle401 3).attempts = 3 ∧
    (refresh_token_with_retry mgr0 "alice" tokA oracle401 3).sleeps = [2 ^ 0, 2 ^ 1] ∧
    (refresh_token_with_retry mgr0 "alice" tokA oracle401 3).result = false ∧
    (refresh_token_with_retry mgr0 "alice" tokA oracle401 3).state.active_tokens "alice" = none ∧
    cacheGet (refresh_token_with_retry mgr0 "alice" tokA oracle401 3).state "alice" = none ∧
    (refresh_token_with_retry mgr0 "alice" tokA oracle401 3).state.refreshing "alice" = false :=
  C5_retry_exhaustion mgr0 "alice" tokA oracle401 (by decide) (fun i _ => rfl)

/-- Claim C6: whenever an OAuth access token is resolved,
    `prepare_oauth_headers` sets `Authorization: Bearer <token>` and
    `anthropic-beta: oauth-2025-04-20` and removes any `x-api-key` header;
    and with no access token present the facade's `get_headers` raises
    instead of returning headers. -/
theorem C6_bearer_headers :
    (∀ (headers : Headers) (api_key : Option String)
       (metadata : Option OAuthMetadata) (env : Option String) (tok : String),
      resolve_oauth_token metadata api_key env = some tok → tok ≠ "" →
      (prepare_oauth_headers headers api_key metadata env) "Authorization"
          = some ("Bearer " ++ tok) ∧
      (prepare_oauth_headers headers api_key metadata env) "anthropic-beta"
          = some "oauth-2025-04-20" ∧
      (prepare_oauth_headers headers api_key metadata env) "x-api-key" = none) ∧
    (∀ tk : Option String, truthyOptStr tk = false →
      get_headers tk
        = .error "No access token available. Please authenticate first: litellm claude login") := by
  constructor
  · intro headers api_key metadata env tok hres htok
    unfold prepare_oauth_headers
    rw [hres]
    simp only [htok, if_neg]
    refine ⟨?_, ?_, ?_⟩ <;> simp [hset, hpop]
  · intro tk htk
    cases tk with
    | none => rfl
    | some s =>
      have hs : s = "" := by simpa [truthyOptStr] using htk
      subst hs
      rfl

/-- Header dict holding an `x-api-key` entry, for the C6 witness. -/
def hdr0 : Headers := hset (fun _ => none) "x-api-key" "sk-old-key"

/-- Metadata carrying an OAuth token, for the C6 witness. -/
def md0 : Option OAuthMetadata :=
  some { using_claude_oauth := false, claude_oauth_token := some "OTOK" }

theorem C6_bearer_headers_witness :
    ((prepare_oauth_headers hdr0 none md0 none) "Authorization"
        = some "Bearer OTOK" ∧
     (prepare_oauth_headers hdr0 none md0 none) "anthropic-beta"
        = some "oauth-2025-04-20" ∧
     (prepare_oauth_headers hdr0 none md0 none) "x-api-key" = none) ∧
    get_headers none
      = .error "No access token available. Please authenticate first: litellm claude login" :=
  ⟨C6_bearer_headers.1 hdr0 none md0 none "OTOK" (by decide) (by decide),
   C6_bearer_headers.2 none (by decide)⟩

/-- Claim C8: a successful refresh replaces the stored refresh token exactly
    when the response carries one, retains it otherwise, and bumps
    `refresh_count` by one; a first-attempt success stores exactly that
    updated record. -/
theorem C8_refresh_rotation :
    (∀ (u : String) (old : ClaudeTokenInfo) (resp : RefreshResponse) (t : String),
      resp.refreshToken = some t →
      (applyRefreshResponse u old resp).refresh_token = some t) ∧
    (∀ (u : String) (old : ClaudeTokenInfo) (resp : RefreshResponse),
      resp.refreshToken = none →
      (applyRefreshResponse u old resp).refresh_token = old.refresh_token) ∧
    (∀ (u : String) (old : ClaudeTokenInfo) (resp : RefreshResponse),
      (applyRefreshResponse u old resp).refresh_count = old.refresh_count + 1 ∧
      old.refresh_count ≤ (applyRefreshResponse u old resp).refresh_count) ∧
    (∀ (st : MgrState) (u : String) (old : ClaudeTokenInfo)
       (oracle : Nat → AttemptOutcome) (resp : RefreshResponse),
      st.refreshing u = false → oracle 0 = .ok resp →
      (refresh_token_with_retry st u old oracle 3).result = true ∧
      (refresh_token_with_retry st u old oracle 3).state.active_tokens u
        = some (applyRefreshResponse u old resp)) := by
  refine ⟨?_, ?_, ?_, ?_⟩
  · intro u old resp t h
    unfold applyRefreshResponse
    rw [h]
  · intro u old resp h
    unfold applyRefreshResponse
    rw [h]
  · intro u old resp
    exact ⟨rfl, Nat.le_succ _⟩
  · intro st u old oracle resp hfree hok
    unfold refresh_token_with_retry
    simp only [hfree, Bool.false_eq_true, if_false]
    show ((fun t : RetryTrace => { t with state :=
        { t.state with refreshing := fun u' =>
            if u' = u then false else t.state.refreshing u' } })
      (retryGo u old oracle 0 3 _ [] 0)).result = true ∧ _
    rw [show (3 : Nat) = 2 + 1 from rfl, retryGo, hok]
    exact ⟨rfl, by simp [store_token]⟩

/-- Refresh response carrying a rotated refresh token. -/
def respR : RefreshResponse :=
  { accessToken := "A2", refreshToken := some "R2", expiresAt := 5000,
    scopes := none, isMax := none }

/-- Refresh response carrying no refresh token. -/
def respN : RefreshResponse :=
  { accessToken := "A3", refreshToken := none, expiresAt := 6000,
    scopes := none, isMax := none }

/-- Every attempt succeeds with `respR`. -/
def oracleOK : Nat → AttemptOutcome := fun _ => .ok respR

theorem C8_refresh_rotation_witness :
    (applyRefreshResponse "alice" tokA respR).refresh_token = some "R2" ∧
    (applyRefreshResponse "alice" tokA respN).refresh_token = tokA.refresh_token ∧
    ((applyRefreshResponse "alice" tokA respR).refresh_count
        = tokA.refresh_count + 1 ∧
      tokA.refresh_count ≤ (applyRefreshResponse "alice" tokA respR).refresh_count) ∧
    ((refresh_token_with_retry mgr0 "alice" tokA oracleOK 3).result = true ∧
     (refresh_token_with_retry mgr0 "alice" tokA oracleOK 3).state.active_tokens "alice"
        = some (applyRefreshResponse "alice" tokA respR)) :=
  ⟨C8_refresh_rotation.1 "alice" tokA respR "R2" rfl,
   C8_refresh_rotation.2.1 "alice" tokA respN rfl,
   C8_refresh_rotation.2.2.1 "alice" tokA respR,
   C8_refresh_rotation.2.2.2 mgr0 "alice" tokA oracleOK respR (by decide) rfl⟩

/-- Claim C9: `revoke_token` returns `True` for every user — including one
    with no token — is idempotent, and therefore the revoke endpoint's
    `"No token found to revoke"` branch is unreachable. -/
theorem C9_revoke_always_succeeds :
    (∀ (st : MgrState) (u : String), (revoke_token st u).1 = true) ∧
    (∀ (st : MgrState) (u : String),
      revoke_token (revoke_token st u).2 u = revoke_token st u) ∧
    (∀ (st : MgrState) (u : String),
      revoke_endpoint_message (revoke_token st u).1
        = "OAuth token revoked successfully") := by
  refine ⟨fun st u => rfl, ?_, fun st u => rfl⟩
  intro st u
  unfold revoke_token
  refine congrArg (Prod.mk true) ?_
  apply MgrState.ext
  · funext u'
    by_cases h : u' = u <;> simp [h]
  · funext u'
    by_cases h : u' = u <;> simp [h]
  · cases hc : st.cache with
    | none => simp
    | some m =>
      simp only [Option.map_some]
      refine congrArg some ?_
      funext k
      by_cases h : k = cacheKey u <;> simp [h]

/-- Claim C10: every failing input to `verify_state` — undecodable and
    expired alike — yields the same 400 `"Invalid OAuth state"` error: the
    expired `HTTPException` is caught by the function's own generic handler,
    so callers can never observe `"OAuth state expired"`. -/
theorem C10_verify_state_errors (decoded : Option PyStateData) (now : Int) :
    (∀ e, verify_state decoded now = .error e →
      e = { status := 400, detail := "Invalid OAuth state" }) ∧
    (∀ sd, decoded = some sd → now - sd.timestamp > 600 →
      verify_state decoded now
        = .error { status := 400, detail := "Invalid OAuth state" }) ∧
    verify_state decoded now
      ≠ .error { status := 400, detail := "OAuth state expired" } := by
  unfold verify_state verify_state_inner
  cases decoded with
  | none =>
    exact ⟨fun e he => (Except.error.inj he).symm,
      fun sd0 h => Option.noConfusion h,
      fun hcon => absurd (Except.error.inj hcon) (by decide)⟩
  | some sd =>
    dsimp only
    by_cases hexp : now - sd.timestamp > 600
    · rw [if_pos hexp]
      exact ⟨fun e he => (Except.error.inj he).symm, fun _ _ _ => rfl,
        fun hcon => absurd (Except.error.inj hcon) (by decide)⟩
    · rw [if_neg hexp]
      refine ⟨fun e he => Except.noConfusion he, ?_,
        fun hcon => Except.noConfusion hcon⟩
      intro sd0 hsd0 hgt
      rw [Option.some.inj hsd0] at hexp
      exact absurd hgt hexp

/-- Expired state payload for the C10 witness. -/
def pySD0 : PyStateData := { nonce := "n", timestamp := 0, user_id := none }

theorem C10_verify_state_errors_witness :
    verify_state (some pySD0) 1000
      = .error { status := 400, detail := "Invalid OAuth state" } ∧
    verify_state (some pySD0) 1000
      ≠ .error { status := 400, detail := "OAuth state expired" } :=
  ⟨(C10_verify_state_errors (some pySD0) 1000).2.1 pySD0 rfl (by decide),
   (C10_verify_state_errors (some pySD0) 1000).2.2⟩
